import Mathlib

/-!
Verification of the interactive (REPL) compilation session driver of the
hash interpreter (`src/main.rs`).

The embedding models the driver faithfully from the source:
`execute` mirrors the dispatch in `src/main.rs` (lines 106-166), the
startup sequence mirrors `main` (lines 46-75), and the read-loop arms
mirror lines 80-102.  The command classifier lives in `src/command.rs`,
which is not part of the provided sources, so it is modelled from the
specification of the Command Classifier (recognized meta prefixes, the
Malformed cases, and the fall-through to Evaluate).  The external
compiler pipeline (`compiler.run`) is abstracted as an explicit function
parameter, exactly as the Rust code abstracts it behind the
`CompilerInterface` generic.
-/

namespace Hashi

/-- Modelled from the spec: the closed command variant produced by the
Command Classifier in `src/command.rs` (file not in the provided sources).
Quit; ClearScreen; ShowVersion; ShowType(expr); ShowTree(expr);
Evaluate(source text).  The source names are `Quit`, `Clear`, `Version`,
`Type`, `Display`, `Code`; lower case is used because `Type` is a Lean
keyword. -/
inductive InteractiveCommand where
  | quit
  | clear
  | version
  | type (expr : String)
  | display (expr : String)
  | code (expr : String)
  deriving DecidableEq, Repr

/-- The interactive error type of `src/error.rs` (not in the provided
sources): a malformed meta command, or an internal failure wrapped from a
line-read error (`InteractiveError::Internal` in `src/main.rs` line 96). -/
inductive InteractiveError where
  | malformed (reason : String)
  | internal (msg : String)
  deriving DecidableEq, Repr

/-- Whitespace trimming on character lists (the structural counterpart
of `str::trim`): drop whitespace from both ends. -/
def trimList (cs : List Char) : List Char :=
  (((cs.dropWhile Char.isWhitespace).reverse.dropWhile Char.isWhitespace)).reverse

/-- Whether the first list begins with the second (the structural
counterpart of `str::starts_with`). -/
def beginsWith : List Char → List Char → Bool
  | _, [] => true
  | [], _ :: _ => false
  | c :: cs, d :: ds => c = d && beginsWith cs ds

/-- Modelled from the spec: the Command Classifier contract of
`src/command.rs`.  Recognized meta prefixes at the start of the trimmed
line: `:q`/`:quit`, `:c`/`:clear`, `:v`/`:version`, `:t <expr>`/`:type
<expr>`, `:d <expr>`/`:display <expr>`.  A recognized prefix with a
missing required argument, or an unrecognized leading `:` token, yields
Malformed; any other non-empty line is Evaluate with the input text
unchanged. -/
def tryFrom (input : String) : Except InteractiveError InteractiveCommand :=
  let t := trimList input.data
  if t = (":q").data || t = (":quit").data then .ok .quit
  else if t = (":c").data || t = (":clear").data then .ok .clear
  else if t = (":v").data || t = (":version").data then .ok .version
  else if t = (":t").data || t = (":type").data
      || t = (":d").data || t = (":display").data then
    .error (.malformed "this command requires an expression argument")
  else if beginsWith t (":type ").data then .ok (.type ⟨trimList (t.drop 6)⟩)
  else if beginsWith t (":t ").data then .ok (.type ⟨trimList (t.drop 3)⟩)
  else if beginsWith t (":display ").data then .ok (.display ⟨trimList (t.drop 9)⟩)
  else if beginsWith t (":d ").data then .ok (.display ⟨trimList (t.drop 3)⟩)
  else if beginsWith t (":").data then .error (.malformed "unrecognized command")
  else .ok (.code input)

/-- The ordered stage enumeration of the pipeline (`CompilerStageKind`
from `hash_pipeline`); only the stages the driver mentions are needed. -/
inductive CompilerStageKind where
  | parse
  | desugar
  | analysis
  deriving DecidableEq, Repr

/-- The AST settings of the pipeline settings object; the driver mutates
only the tree-dump flag (`settings.ast_settings_mut().dump`). -/
structure AstSettings where
  dump : Bool
  deriving DecidableEq, Repr

/-- The compiler settings object threaded through the session: the
current stage target and the AST display flags, mutated per turn by the
dispatch in `execute`. -/
structure CompilerSettings where
  ast : AstSettings
  stage : CompilerStageKind
  deriving DecidableEq, Repr

/-- `settings.set_stage(kind)` from `hash_pipeline`: replaces the stage
target. -/
def CompilerSettings.set_stage (s : CompilerSettings) (k : CompilerStageKind) :
    CompilerSettings :=
  { s with stage := k }

/-- The session state threaded across REPL turns (the `ctx : I` of
`execute`): the settings, the pending diagnostics sequence, and the
registry of interactive blocks (the registered source text of each, in
registration order; ids are positions). -/
structure SessionState where
  settings : CompilerSettings
  diagnostics : List String
  interactive_blocks : List String
  deriving DecidableEq, Repr

/-- `ctx.add_interactive_block(expr, InteractiveBlock::new())`: appends a
new block and returns its fresh monotonically increasing id. -/
def addInteractiveBlock (ctx : SessionState) (expr : String) :
    Nat × SessionState :=
  (ctx.interactive_blocks.length,
   { ctx with interactive_blocks := ctx.interactive_blocks ++ [expr] })

/-- The per-branch settings mutation of `execute` (`src/main.rs` lines
138-152): `:t` writes dump := false and stage := Analysis; `:d` writes
dump := true and stage := Parse; every other evaluated command (the `_`
arm, i.e. `Code`) writes only dump := false and leaves the stage target
untouched. -/
def evalSettings (cmd : InteractiveCommand) (s : CompilerSettings) :
    CompilerSettings :=
  match cmd with
  | .type _ => ({ s with ast := { s.ast with dump := false } }).set_stage .analysis
  | .display _ => ({ s with ast := { s.ast with dump := true } }).set_stage .parse
  | _ => { s with ast := { s.ast with dump := false } }

/-- The part of the evaluated-command arm of `execute` that precedes
`compiler.run` (`src/main.rs` lines 130-156): register the interactive
block, patch the settings for this command, then clear the pending
diagnostics.  Returns the fresh block id and the state handed to the
pipeline driver. -/
def prepareEval (cmd : InteractiveCommand) (expr : String)
    (ctx : SessionState) : Nat × SessionState :=
  let r := addInteractiveBlock ctx expr
  let ctx1 := { r.2 with settings := evalSettings cmd r.2.settings }
  (r.1, { ctx1 with diagnostics := [] })

/-- Modelled from the spec: the compile-time version string
(`env!("EXECUTABLE_VERSION")`); its value is not in the provided sources
and no claim depends on it. -/
def VERSION : String := "0.1.0"

/-- The banner printed by `print_version` (`src/main.rs` line 28). -/
def versionBanner : String := "Version " ++ VERSION

/-- The farewell printed by `goodbye` before `exit(0)` (`src/main.rs`
line 33). -/
def goodbyeMsg : String := "Goodbye!"

/-- The farewell printed by the read loop on interrupt or end of input
(`src/main.rs` line 89). -/
def exitingMsg : String := "Exiting!"

/-- The external program spawned by the ClearScreen arm: `cls` on
Windows, `clear` otherwise (`src/main.rs` lines 119-123). -/
def clearProgram (windows : Bool) : String :=
  if windows then "cls" else "clear"

/-- Modelled from the spec: the external diagnostic renderer
(`ReportWriter` from `hash_reporting`), which turns reports plus the
source map into user-facing text.  Its exact text does not matter to any
claim; the model returns the carried message. -/
def renderReport (e : InteractiveError) : String :=
  match e with
  | .malformed r => r
  | .internal m => m

/-- The observable outcome of processing one read-loop event: continue
with an updated state after printing some lines, exit the process with a
status code after printing some lines, or abort via panic (an `unwrap`
on an error value). -/
inductive TurnOutcome where
  | next (state : SessionState) (printed : List String)
  | exited (code : Nat) (printed : List String)
  | panicked
  deriving DecidableEq, Repr

/-- The evaluated-command arm of `execute` after classification: prepare
the state, run the pipeline driver on the fresh block id, return the new
state (`src/main.rs` lines 130-158). -/
def runEval (run : Nat → SessionState → SessionState)
    (cmd : InteractiveCommand) (expr : String) (ctx : SessionState) :
    TurnOutcome :=
  let p := prepareEval cmd expr ctx
  .next (run p.1 p.2) []

/-- `execute` (`src/main.rs` lines 106-166): process one line of REPL
input.  The empty line short-circuits before classification; Quit calls
`goodbye` (prints and exits 0); Clear spawns the external clear command
and unwraps the result (panic on spawn failure); Version prints the
banner; the three evaluated commands register a block, patch settings,
clear diagnostics and run the pipeline; a classification error prints a
single rendered report.  `run` abstracts `compiler.run`;
`clearSpawnOk` abstracts whether the external clear process could be
spawned. -/
def execute (run : Nat → SessionState → SessionState) (clearSpawnOk : Bool)
    (input : String) (ctx : SessionState) : TurnOutcome :=
  if input = "" then .next ctx []
  else
    match tryFrom input with
    | .ok .quit => .exited 0 [goodbyeMsg]
    | .ok .clear => if clearSpawnOk then .next ctx [] else .panicked
    | .ok .version => .next ctx [versionBanner]
    | .ok (.type e) => runEval run (.type e) e ctx
    | .ok (.display e) => runEval run (.display e) e ctx
    | .ok (.code e) => runEval run (.code e) e ctx
    | .error err => .next ctx [renderReport err]

/-- One line-read event delivered to the REPL loop (`src/main.rs` lines
83-101): a line, an interrupt, end of input, or another read failure. -/
inductive ReadResult where
  | ok (line : String)
  | interrupted
  | eof
  | err (msg : String)
  deriving DecidableEq, Repr

/-- One iteration of the REPL loop body (`src/main.rs` lines 80-102): a
read line is dispatched through `execute`; interrupt and end of input
print the farewell and leave the loop (whereupon `main` returns and the
process exits with status 0); any other read failure is wrapped as an
`InteractiveError::Internal` report, rendered and printed, and the loop
continues with the state intact. -/
def replStep (run : Nat → SessionState → SessionState) (clearSpawnOk : Bool)
    (ctx : SessionState) (r : ReadResult) : TurnOutcome :=
  match r with
  | .ok line => execute run clearSpawnOk line ctx
  | .interrupted => .exited 0 [exitingMsg]
  | .eof => .exited 0 [exitingMsg]
  | .err m => .next ctx [renderReport (.internal m)]

/-- The thread count passed to the rayon pool builder
(`src/main.rs` line 62): `settings.worker_count + 1`. -/
def pool_num_threads (worker_count : Nat) : Nat := worker_count + 1

/-- Outcome of the startup sequence of `main` (`src/main.rs` lines
46-75): the process either terminates through the fatal-error sink
(`emit_fatal_error`, which renders the error against the dummy source
map and exits non-zero), aborts via a panic (`unwrap`), or reaches a
usable session. -/
inductive StartupOutcome where
  | fatalReported
  | panicked
  | session (slots : Nat)
  deriving DecidableEq, Repr

/-- The startup sequence of `main` (`src/main.rs` lines 46-75): the
entry-point check and the workspace construction are wrapped in
`handle_error` (failure is routed to `emit_fatal_error`); the pool is
built with `worker_count + 1` threads and the result is `unwrap`-ped
(failure panics).  On success the session holds the constructed pool. -/
def startup (entryOk workspaceOk poolOk : Bool) (worker_count : Nat) :
    StartupOutcome :=
  if !entryOk then .fatalReported
  else if !workspaceOk then .fatalReported
  else if !poolOk then .panicked
  else .session (pool_num_threads worker_count)

/-! Theorems about the driver. -/

/-- C1 counterexample: the claim that an Evaluate dispatch writes both
settings fields (tree-dump flag false AND stage target Analysis) is
false on the code.  Starting a turn with the stage target left at Parse
by a previous `:d` turn, dispatching the Evaluate input `1 + 2` hands
the pipeline a state whose stage target is still Parse, not Analysis:
the `_` arm of the dispatch (`src/main.rs` lines 149-151) writes only
the dump flag. -/
theorem C1_counterexample :
    (prepareEval (.code "1 + 2") "1 + 2"
        ⟨⟨⟨true⟩, .parse⟩, ["stale"], []⟩).2.settings.stage = .parse ∧
    CompilerStageKind.parse ≠ CompilerStageKind.analysis ∧
    execute (fun _ s => s) true "1 + 2" ⟨⟨⟨true⟩, .parse⟩, ["stale"], []⟩ =
      .next ⟨⟨⟨false⟩, .parse⟩, [], ["1 + 2"]⟩ [] :=
  ⟨rfl, by decide, rfl⟩

/-- C1 amended: for every Evaluate dispatch, starting from any previous
settings, the dispatch writes the tree-dump flag to false and leaves the
stage target unchanged; only the dump field is written on this path. -/
theorem C1_evaluate_writes_only_dump (s : CompilerSettings) (e : String) :
    (evalSettings (.code e) s).ast.dump = false ∧
    (evalSettings (.code e) s).stage = s.stage :=
  ⟨rfl, rfl⟩

/-- C2: the pool is built with `worker_count + 1` threads with no lower
bound, so the configured count W = 0 yields a single usable slot, not
the at-least-two slots the claim (and the comment at `src/main.rs`
lines 58-60) requires to avoid self-deadlock of nested sub-jobs. -/
theorem C2_pool_w0_single_slot :
    pool_num_threads 0 = 1 ∧ ¬ 2 ≤ pool_num_threads 0 ∧
    ∀ w : Nat, pool_num_threads w = w + 1 :=
  ⟨rfl, by decide, fun _ => rfl⟩

/-- C3 counterexample: a whitespace-only line is not short-circuited.
The driver only tests `input.is_empty()` (`src/main.rs` line 108), so
the single-space line reaches classification, is dispatched as Evaluate,
registers a block, rewrites the settings, clears the stale diagnostics
and runs the pipeline: the session state changes. -/
theorem C3_counterexample :
    execute (fun _ s => { s with diagnostics := ["pipeline ran"] }) true " "
      ⟨⟨⟨true⟩, .parse⟩, ["stale"], []⟩ =
      .next ⟨⟨⟨false⟩, .parse⟩, ["pipeline ran"], [" "]⟩ [] ∧
    TurnOutcome.next (⟨⟨⟨false⟩, .parse⟩, ["pipeline ran"], [" "]⟩ : SessionState) [] ≠
      .next ⟨⟨⟨true⟩, .parse⟩, ["stale"], []⟩ [] :=
  ⟨rfl, by decide⟩

/-- C3 amended: only the literally empty input line short-circuits
before classification; for it no pipeline stage is invoked (the outcome
does not depend on the pipeline function) and the session state is
returned unchanged. -/
theorem C3_empty_line_short_circuits (run : Nat → SessionState → SessionState)
    (c : Bool) (ctx : SessionState) :
    execute run c "" ctx = .next ctx [] :=
  rfl

/-- C4: after a ShowTree dispatch the tree-dump flag is true and the
stage target is Parse, and after a ShowType dispatch the tree-dump flag
is false and the stage target is Analysis, whatever settings the
previous turn left behind (both fields are written on both paths, so a
`:t` immediately followed by a `:d`, or the reverse, cannot leak). -/
theorem C4_type_display_settings (ctx : SessionState) (e : String) :
    (prepareEval (.display e) e ctx).2.settings.ast.dump = true ∧
    (prepareEval (.display e) e ctx).2.settings.stage = .parse ∧
    (prepareEval (.type e) e ctx).2.settings.ast.dump = false ∧
    (prepareEval (.type e) e ctx).2.settings.stage = .analysis :=
  ⟨rfl, rfl, rfl, rfl⟩

/-- C5: on each of the three evaluated command kinds the state handed to
the pipeline driver has an empty diagnostics sequence and the
interactive block registered (appended), so the clearing happens after
registration and before the run, and no diagnostic entry of a prior
turn survives into the run; moreover the dispatch invokes the pipeline
exactly on that prepared state. -/
theorem C5_diagnostics_cleared_before_run (ctx : SessionState) (e : String) :
    ((prepareEval (.type e) e ctx).2.diagnostics = [] ∧
      (prepareEval (.type e) e ctx).2.interactive_blocks =
        ctx.interactive_blocks ++ [e]) ∧
    ((prepareEval (.display e) e ctx).2.diagnostics = [] ∧
      (prepareEval (.display e) e ctx).2.interactive_blocks =
        ctx.interactive_blocks ++ [e]) ∧
    ((prepareEval (.code e) e ctx).2.diagnostics = [] ∧
      (prepareEval (.code e) e ctx).2.interactive_blocks =
        ctx.interactive_blocks ++ [e]) ∧
    ∀ run : Nat → SessionState → SessionState,
      runEval run (.code e) e ctx =
        .next (run (prepareEval (.code e) e ctx).1
          (prepareEval (.code e) e ctx).2) [] :=
  ⟨⟨rfl, rfl⟩, ⟨rfl, rfl⟩, ⟨rfl, rfl⟩, fun _ => rfl⟩

/-- C6 counterexample: a Worker Pool construction failure is not routed
through the fatal-error sink: the pool build result is `unwrap`-ped
(`src/main.rs` line 65), so the process aborts by panic instead of a
rendered fatal report. -/
theorem C6_counterexample :
    startup true true false 4 = .panicked ∧
    StartupOutcome.panicked ≠ StartupOutcome.fatalReported :=
  ⟨rfl, by decide⟩

/-- C6 amended: a failing entry-point check or workspace construction
is reported through the fatal-error sink (exit non-zero, rendered
against the default source map); a failing Worker Pool construction
aborts by panic instead of the fatal-error sink; only the all-success
path constructs a session, so no failure leaves a partial session
running. -/
theorem C6_startup_failures (w p : Bool) (n : Nat) :
    startup false w p n = .fatalReported ∧
    startup true false p n = .fatalReported ∧
    startup true true false n = .panicked ∧
    startup true true true n = .session (pool_num_threads n) :=
  ⟨rfl, rfl, rfl, rfl⟩

/-- C7: on a `:q`/`:quit` command, and on an interrupt or end-of-input
signal during a line read, the REPL prints a farewell and the process
exits with status 0; the outcome does not depend on the pipeline
function, so no pipeline run occurs for that turn. -/
theorem C7_clean_exit (run : Nat → SessionState → SessionState) (c : Bool)
    (ctx : SessionState) :
    execute run c ":q" ctx = .exited 0 [goodbyeMsg] ∧
    execute run c ":quit" ctx = .exited 0 [goodbyeMsg] ∧
    replStep run c ctx .interrupted = .exited 0 [exitingMsg] ∧
    replStep run c ctx .eof = .exited 0 [exitingMsg] :=
  ⟨rfl, rfl, rfl, rfl⟩

/-- C8: a line-reading failure that is not an interrupt or end of input
does not crash the session: it is wrapped as an internal interactive
error, rendered and printed once, and the loop continues with the
session state intact. -/
theorem C8_read_failure_recoverable (run : Nat → SessionState → SessionState)
    (c : Bool) (ctx : SessionState) (m : String) :
    replStep run c ctx (.err m) = .next ctx [renderReport (.internal m)] :=
  rfl

/-- C9: a turn classified as ShowVersion prints exactly the version
banner, and a turn whose classification fails prints exactly one
rendered report; in both cases the session state is returned unchanged
(no block registered, no settings mutation, no diagnostics clearing)
and the outcome does not depend on the pipeline function. -/
theorem C9_version_malformed_no_op (run : Nat → SessionState → SessionState)
    (c : Bool) (input : String) (ctx : SessionState) :
    input ≠ "" →
    (tryFrom input = .ok .version →
      execute run c input ctx = .next ctx [versionBanner]) ∧
    (∀ r, tryFrom input = .error r →
      execute run c input ctx = .next ctx [renderReport r]) := by
  intro hne
  refine ⟨fun hv => ?_, fun r hr => ?_⟩
  · unfold execute
    rw [if_neg hne, hv]
  · unfold execute
    rw [if_neg hne, hr]

/-- Witness for C9: instantiated at the inputs `:v` (ShowVersion) and
`:t` (Malformed, missing expression argument) on a concrete state. -/
theorem C9_witness :
    execute (fun _ s => s) true ":v" ⟨⟨⟨false⟩, .analysis⟩, [], []⟩ =
      .next ⟨⟨⟨false⟩, .analysis⟩, [], []⟩ [versionBanner] ∧
    execute (fun _ s => s) true ":t" ⟨⟨⟨false⟩, .analysis⟩, [], []⟩ =
      .next ⟨⟨⟨false⟩, .analysis⟩, [], []⟩
        [renderReport (.malformed "this command requires an expression argument")] := by
  constructor
  · exact (C9_version_malformed_no_op (fun _ s => s) true ":v"
      ⟨⟨⟨false⟩, .analysis⟩, [], []⟩ (by decide)).1 rfl
  · exact (C9_version_malformed_no_op (fun _ s => s) true ":t"
      ⟨⟨⟨false⟩, .analysis⟩, [], []⟩ (by decide)).2 _ rfl

/-- C10: the ClearScreen arm spawns the external clear program (`cls`
on Windows, `clear` otherwise) and unwraps the result: when the spawn
fails the process panics instead of printing a recoverable report, and
when it succeeds the session state is returned unchanged. -/
theorem C10_clear_spawn_unwrap (run : Nat → SessionState → SessionState)
    (ctx : SessionState) :
    execute run false ":c" ctx = .panicked ∧
    execute run true ":c" ctx = .next ctx [] ∧
    execute run false ":clear" ctx = .panicked ∧
    execute run true ":clear" ctx = .next ctx [] ∧
    clearProgram true = "cls" ∧ clearProgram false = "clear" :=
  ⟨rfl, rfl, rfl, rfl, rfl, rfl⟩

end Hashi
